import Mathlib

/-!
Verification of `process_pending_submissions.py` (astrokit).

The module reconciles locally recorded astrometry submissions against the
remote plate-solving service.  We embed the module shallowly: the mutable
Django records become explicit state, every externally visible action
(log lines, record-store writes, remote queries, HTTP fetches, S3 uploads,
extraction-engine invocations) is recorded in an effect trace, and every
external call takes its result from a `World` oracle whose operations may
fail (`Except`), modelling transport errors and extraction crashes that the
Python code does not catch.  `PureWorld` is the never-failing refinement
used for claims about expected remote states.
-/

deriving instance DecidableEq for Except

/-- Status values of `AstrometrySubmission` used by this module
(src lines 61, 98, 220). -/
inductive SubStatus
  | SUBMITTED
  | COMPLETE
  | FAILED_TO_PROCESS
  deriving DecidableEq

/-- Status values of `AstrometrySubmissionJob` written by this module:
only SUCCESS is ever written (src line 76). -/
inductive JobStatus
  | SUCCESS
  deriving DecidableEq

/-- Status values of `AnalysisResult` written by this module
(src line 102). -/
inductive ResStatus
  | COMPLETE
  deriving DecidableEq

/-- The per-job info payload returned by the remote `jobs/<id>/info`
request: a dict with a `status` string plus further opaque content,
modelled by a numeric token. -/
structure JobInfo where
  status : String
  raw : Nat
  deriving DecidableEq

/-- Rendering of the info dict used by the `%s` interpolation in the
unknown-status warning (src line 67). -/
def JobInfo.toStr (i : JobInfo) : String :=
  "status=" ++ i.status ++ ",raw=" ++ toString i.raw

/-- The remote submission-status response when it is not falsy:
`processing_finished` is `some v` when the key is present with value `v`
(the Python code at src line 43 tests key membership, not the value), and
`jobs` is the job-ID list. -/
structure SubStatusResp where
  processing_finished : Option Bool
  jobs : List Nat
  deriving DecidableEq

/-- An `AstrometrySubmission` record: identity, status and the
`succeeded_at` timestamp (src lines 61, 97-98). -/
structure SubRec where
  subid : Nat
  status : SubStatus
  succeeded_at : Option Nat
  deriving DecidableEq

/-- An `AstrometrySubmissionJob` record as created at src lines 73-78. -/
structure JobRec where
  submission : Nat
  jobid : Nat
  status : JobStatus
  annotations : Nat
  info : JobInfo
  deriving DecidableEq

/-- An `AnalysisResult` record: the job it belongs to, its status and the
artifact-URL fields assigned during publishing (src lines 89, 102,
124-207). -/
structure ResultRec where
  astrometry_job : JobRec
  status : Option ResStatus
  astrometry_annotated_display_url : Option String
  astrometry_corr_fits_url : Option String
  astrometry_image_fits_url : Option String
  coords_plot_url : Option String
  coords_fits_url : Option String
  coords_json_url : Option String
  psf_scatter_url : Option String
  psf_bar_url : Option String
  psf_hist_url : Option String
  psf_residual_image_url : Option String
  deriving DecidableEq

/-- The fresh `AnalysisResult` created by `objects.create(astrometry_job=job)`
at src line 89: every other field unset. -/
def blankResult (job : JobRec) : ResultRec :=
  { astrometry_job := job
    status := none
    astrometry_annotated_display_url := none
    astrometry_corr_fits_url := none
    astrometry_image_fits_url := none
    coords_plot_url := none
    coords_fits_url := none
    coords_json_url := none
    psf_scatter_url := none
    psf_bar_url := none
    psf_hist_url := none
    psf_residual_image_url := none }

/-- The dict `vars(args)` passed to the handler constructor
(src line 232) and stored as `self.args`: the single `--dry_run` flag
(src lines 225-228). -/
structure Args where
  dry_run : Bool
  deriving DecidableEq

/-- The module-global name `args` that every bare `args['dry_run']` inside
the methods resolves to (src lines 99, 123, 131, 140, 162, 170, 178, 195).
A binding is characterized by what evaluating the subscript
`args['dry_run']` yields: a Boolean, or a raised exception. -/
structure GlobalArgs where
  getitem_dry_run : Except String Bool

/-- The binding the script creates when run as __main__ (src line 231):
`args = get_args()` is an argparse Namespace carrying the parsed flag.
This is Python 2 code (`urllib.urlopen`) and `argparse.Namespace` defines
no `__getitem__`, so every evaluation of `args['dry_run']` raises
TypeError regardless of the flag value. -/
def namespaceArgs (dry_run : Bool) : GlobalArgs :=
  { getitem_dry_run :=
      Except.error "TypeError: 'Namespace' object has no attribute '__getitem__'" }

/-- A counterfactual subscriptable binding of the global `args` (what the
guards would see had they read the stored `self.args` dict instead):
the subscript yields the flag. -/
def dictArgs (dry_run : Bool) : GlobalArgs :=
  { getitem_dry_run := Except.ok dry_run }

/-- Externally visible actions, in program order.  Log lines carry their
exact message; record-store writes carry the written snapshot; queries,
fetches, uploads and extraction calls carry their arguments. -/
inductive Effect
  | logInfo (msg : String)
  | logWarn (msg : String)
  | querySubStatus (subid : Nat)
  | queryJobInfo (jobid : Nat)
  | queryJobAnnotations (jobid : Nat)
  | jobCreate (rec : JobRec)
  | subSave (snapshot : SubRec)
  | resultCreate (rec : ResultRec)
  | resultSave (snapshot : ResultRec)
  | httpGet (url : String)
  | uploadViaUrl (src key_pref name : String)
  | uploadBytes (data : Nat) (key_pref name : String)
  | uploadFile (path key_pref : String)
  | extractLoadData (data : Nat)
  | extractCompute (data : Nat)
  | extractPlot (path : String)
  | extractSaveFits (path : String)
  | extractSaveJson (path : String)
  | extractPsfFlux (p1 p2 p3 p4 : String)
  deriving DecidableEq

/-- The mutable state of one reconciliation run: the effect trace, the
in-memory submission object and the rows written to the record store. -/
structure St where
  trace : List Effect
  submission : SubRec
  submission_saves : List SubRec
  jobs_created : List JobRec
  results_created : List ResultRec
  result_saves : List ResultRec
  deriving DecidableEq

/-- The external world: every remote query, HTTP fetch, upload and
extraction routine, each allowed to fail with a transport or computation
error, plus the current time used by `timezone.now()`. -/
structure World where
  sub_status : Nat → Bool → Except String (Option SubStatusResp)
  job_info : Nat → Except String JobInfo
  job_annotations : Nat → Except String Nat
  urlopen_read : String → Except String Nat
  upload_to_s3_via_url : String → String → String → Except String String
  upload_to_s3 : Nat → String → String → Except String String
  upload_to_s3_via_file : String → String → Except String String
  load_data_as_fits : Nat → Except String Nat
  compute : Nat → Except String Nat
  plot : Nat → Nat → String → Except String Unit
  save_fits : Nat → String → Except String Unit
  save_json : Nat → String → Except String Unit
  compute_psf_flux : Nat → Nat → String → String → String → String → Except String Unit
  now : Nat

/-- A world in which no external call fails: the expected-state refinement
of `World`. -/
structure PureWorld where
  sub_status : Nat → Bool → Option SubStatusResp
  job_info : Nat → JobInfo
  job_annotations : Nat → Nat
  urlopen_read : String → Nat
  upload_to_s3_via_url : String → String → String → String
  upload_to_s3 : Nat → String → String → String
  upload_to_s3_via_file : String → String → String
  load_data_as_fits : Nat → Nat
  compute : Nat → Nat
  now : Nat

/-- Embeds a never-failing world into the fallible interface. -/
def World.ofPure (w : PureWorld) : World :=
  { sub_status := fun s v => .ok (w.sub_status s v)
    job_info := fun j => .ok (w.job_info j)
    job_annotations := fun j => .ok (w.job_annotations j)
    urlopen_read := fun u => .ok (w.urlopen_read u)
    upload_to_s3_via_url := fun u k n => .ok (w.upload_to_s3_via_url u k n)
    upload_to_s3 := fun d k n => .ok (w.upload_to_s3 d k n)
    upload_to_s3_via_file := fun p k => .ok (w.upload_to_s3_via_file p k)
    load_data_as_fits := fun d => .ok (w.load_data_as_fits d)
    compute := fun d => .ok (w.compute d)
    plot := fun _ _ _ => .ok ()
    save_fits := fun _ _ => .ok ()
    save_json := fun _ _ => .ok ()
    compute_psf_flux := fun _ _ _ _ _ _ => .ok ()
    now := w.now }

/-- State-and-error monad of the embedding: a computation transforms the
run state and either returns a value or propagates an uncaught exception.
The state is kept on error, so the trace and record writes made before an
exception remain visible (the Python code has no try/except). -/
abbrev M (α : Type) : Type := St → St × Except String α

instance : Monad M where
  pure a := fun st => (st, Except.ok a)
  bind x f := fun st =>
    match x st with
    | (st1, Except.ok a) => f a st1
    | (st1, Except.error e) => (st1, Except.error e)

/-- Appends one effect to the trace. -/
def emit (e : Effect) : M Unit :=
  fun st => ({ st with trace := st.trace ++ [e] }, Except.ok ())

/-- Runs an external call: its failure aborts the computation. -/
def liftE (x : Except String α) : M α := fun st => (st, x)

/-- Reads the in-memory submission object (`self.submission`). -/
def getSubmission : M SubRec := fun st => (st, Except.ok st.submission)

/-- Assigns a field of the in-memory submission object. -/
def setSubmission (s : SubRec) : M Unit :=
  fun st => ({ st with submission := s }, Except.ok ())

/-- Embeds `AstrometrySubmissionJob.objects.create(...)` (src lines 73-78):
a new row is written to the record store. -/
def createJobRec (j : JobRec) : M Unit :=
  fun st =>
    ({ st with trace := st.trace ++ [Effect.jobCreate j],
               jobs_created := st.jobs_created ++ [j] }, Except.ok ())

/-- Embeds `submission.save()`: persists the current in-memory snapshot. -/
def saveSubmission : M Unit :=
  fun st =>
    ({ st with trace := st.trace ++ [Effect.subSave st.submission],
               submission_saves := st.submission_saves ++ [st.submission] },
     Except.ok ())

/-- Embeds `AnalysisResult.objects.create(astrometry_job=job)`
(src line 89). -/
def createAnalysisResult (r : ResultRec) : M Unit :=
  fun st =>
    ({ st with trace := st.trace ++ [Effect.resultCreate r],
               results_created := st.results_created ++ [r] }, Except.ok ())

/-- Embeds `result.save()` (src line 103). -/
def saveAnalysisResult (r : ResultRec) : M Unit :=
  fun st =>
    ({ st with trace := st.trace ++ [Effect.resultSave r],
               result_saves := st.result_saves ++ [r] }, Except.ok ())

/-- URL template for the annotated display image (src lines 110-111). -/
def annotatedDisplayUrl (jobid : Nat) : String :=
  "http://nova.astrometry.net/annotated_display/" ++ toString jobid

/-- URL template for the new FITS file (src lines 112-113). -/
def newImageFitsUrl (jobid : Nat) : String :=
  "http://nova.astrometry.net/new_fits_file/" ++ toString jobid

/-- URL template for the correlation file (src lines 114-115). -/
def corrUrl (jobid : Nat) : String :=
  "http://nova.astrometry.net/corr_file/" ++ toString jobid

/-- The upload key prefix `'processed/%d' % (submission.subid)`
(src line 118). -/
def keyPref (subid : Nat) : String := "processed/" ++ toString subid

/-- The artifact file names `'%d_%d<suffix>' % (subid, jobid)` used
throughout `save_submission_results` and `process_fits_image`. -/
def nm (subid jobid : Nat) (suffix : String) : String :=
  toString subid ++ "_" ++ toString jobid ++ suffix

/-- Embeds `SubmissionHandler.process_fits_image` (src lines 150-212).
The mutated `result` object is threaded functionally and returned.
`gargs` is the module-level `args` binding, whose subscript is evaluated
anew at each `if not args['dry_run']` guard and may raise; `selfArgs` is
the dict stored by `__init__`, which the source never reads again. -/
def process_fits_image (w : World) (gargs : GlobalArgs) (selfArgs : Args)
    (image_data : Nat) (job : JobRec) (result : ResultRec)
    (upload_key_pref : String) :
    M ResultRec := do
  let submission ← getSubmission
  emit (.logInfo ("-> Processing fits image for submission " ++
    toString submission.subid))
  emit (.extractLoadData image_data)
  let data ← liftE (w.load_data_as_fits image_data)
  emit (.extractCompute data)
  let sources ← liftE (w.compute data)
  let coords_plot_path := nm submission.subid job.jobid "_plot.png"
  emit (.extractPlot coords_plot_path)
  let _ ← liftE (w.plot sources data coords_plot_path)
  emit (.logInfo ("  -> Uploading " ++ coords_plot_path ++ "..."))
  let dry ← liftE gargs.getitem_dry_run
  let result ← if !dry then do
      emit (.uploadFile coords_plot_path upload_key_pref)
      let url ← liftE (w.upload_to_s3_via_file coords_plot_path upload_key_pref)
      pure { result with coords_plot_url := some url }
    else pure result
  let coords_fits_path := nm submission.subid job.jobid "_coords.fits"
  emit (.extractSaveFits coords_fits_path)
  let _ ← liftE (w.save_fits sources coords_fits_path)
  emit (.logInfo ("  -> Uploading " ++ coords_fits_path ++ "..."))
  let dry ← liftE gargs.getitem_dry_run
  let result ← if !dry then do
      emit (.uploadFile coords_fits_path upload_key_pref)
      let url ← liftE (w.upload_to_s3_via_file coords_fits_path upload_key_pref)
      pure { result with coords_fits_url := some url }
    else pure result
  let coords_json_path := nm submission.subid job.jobid "_coords.json"
  emit (.extractSaveJson coords_json_path)
  let _ ← liftE (w.save_json sources coords_json_path)
  emit (.logInfo ("  -> Uploading " ++ coords_json_path ++ "..."))
  let dry ← liftE gargs.getitem_dry_run
  let result ← if !dry then do
      emit (.uploadFile coords_json_path upload_key_pref)
      let url ← liftE (w.upload_to_s3_via_file coords_json_path upload_key_pref)
      pure { result with coords_json_url := some url }
    else pure result
  let psf_scatter_path := nm submission.subid job.jobid "_psf_scatter.png"
  let psf_bar_path := nm submission.subid job.jobid "_psf_bar.png"
  let psf_hist_path := nm submission.subid job.jobid "_psf_hist.png"
  let psf_residual_path := nm submission.subid job.jobid "_psf_residual.png"
  emit (.extractPsfFlux psf_scatter_path psf_bar_path psf_hist_path
    psf_residual_path)
  let _ ← liftE (w.compute_psf_flux data sources psf_scatter_path psf_bar_path
    psf_hist_path psf_residual_path)
  emit (.logInfo ("  -> Uploading " ++ psf_scatter_path))
  emit (.logInfo ("  -> Uploading " ++ psf_bar_path))
  emit (.logInfo ("  -> Uploading " ++ psf_hist_path))
  emit (.logInfo ("  -> Uploading " ++ psf_residual_path))
  let dry ← liftE gargs.getitem_dry_run
  let result ← if !dry then do
      emit (.uploadFile psf_scatter_path upload_key_pref)
      let u1 ← liftE (w.upload_to_s3_via_file psf_scatter_path upload_key_pref)
      emit (.uploadFile psf_bar_path upload_key_pref)
      let u2 ← liftE (w.upload_to_s3_via_file psf_bar_path upload_key_pref)
      emit (.uploadFile psf_hist_path upload_key_pref)
      let u3 ← liftE (w.upload_to_s3_via_file psf_hist_path upload_key_pref)
      emit (.uploadFile psf_residual_path upload_key_pref)
      let u4 ← liftE (w.upload_to_s3_via_file psf_residual_path upload_key_pref)
      pure { result with psf_scatter_url := some u1, psf_bar_url := some u2,
                         psf_hist_url := some u3,
                         psf_residual_image_url := some u4 }
    else pure result
  emit (.logInfo ("-> Processed fits image for submission " ++
    toString submission.subid))
  pure result

/-- Embeds `SubmissionHandler.save_submission_results` (src lines 105-148). -/
def save_submission_results (w : World) (gargs : GlobalArgs)
    (selfArgs : Args) (job : JobRec) (result : ResultRec) : M ResultRec := do
  let submission ← getSubmission
  emit (.logInfo ("-> Uploading results for submission " ++
    toString submission.subid))
  let annotated_display_url := annotatedDisplayUrl job.jobid
  let new_image_fits_url := newImageFitsUrl job.jobid
  let corr_url := corrUrl job.jobid
  let upload_key_pref := keyPref submission.subid
  let name := nm submission.subid job.jobid "_annotated.jpg"
  emit (.logInfo ("  -> Uploading " ++ name ++ "..."))
  let dry ← liftE gargs.getitem_dry_run
  let result ← if !dry then do
      emit (.uploadViaUrl annotated_display_url upload_key_pref name)
      let url ← liftE (w.upload_to_s3_via_url annotated_display_url
        upload_key_pref name)
      pure { result with astrometry_annotated_display_url := some url }
    else pure result
  let name := nm submission.subid job.jobid "_corr.fits"
  emit (.logInfo ("  -> Uploading " ++ name ++ "..."))
  let dry ← liftE gargs.getitem_dry_run
  let result ← if !dry then do
      emit (.uploadViaUrl corr_url upload_key_pref name)
      let url ← liftE (w.upload_to_s3_via_url corr_url upload_key_pref name)
      pure { result with astrometry_corr_fits_url := some url }
    else pure result
  let name := nm submission.subid job.jobid "_image.fits"
  emit (.httpGet new_image_fits_url)
  let fits_image_data ← liftE (w.urlopen_read new_image_fits_url)
  emit (.logInfo ("  -> Uploading " ++ name ++ "..."))
  let dry ← liftE gargs.getitem_dry_run
  let result ← if !dry then do
      emit (.uploadBytes fits_image_data upload_key_pref name)
      let url ← liftE (w.upload_to_s3 fits_image_data upload_key_pref name)
      pure { result with astrometry_image_fits_url := some url }
    else pure result
  emit (.logInfo ("-> Uploaded results for submission " ++
    toString submission.subid))
  process_fits_image w gargs selfArgs fits_image_data job result
    upload_key_pref

/-- Embeds `SubmissionHandler.process_completed_submission`
(src lines 87-103).  Note which mutations the dry-run guard protects: only
`submission.save()` (src line 99); the `AnalysisResult` creation and save
are unconditional.  The guard itself evaluates `args['dry_run']` on the
global binding and may raise. -/
def process_completed_submission (w : World) (gargs : GlobalArgs)
    (selfArgs : Args) (job : JobRec) : M Unit := do
  let submission ← getSubmission
  let result := blankResult job
  createAnalysisResult result
  emit (.logInfo ("-> Submission " ++ toString submission.subid ++ ", Job " ++
    toString job.jobid ++ " is complete"))
  let result ← save_submission_results w gargs selfArgs job result
  let submission ← getSubmission
  setSubmission { submission with succeeded_at := some w.now }
  let submission ← getSubmission
  setSubmission { submission with status := .COMPLETE }
  let dry ← liftE gargs.getitem_dry_run
  if !dry then saveSubmission
  let result := { result with status := some ResStatus.COMPLETE }
  saveAnalysisResult result

/-- Result of the per-job loop body: either the enclosing function
returned early with the given value, or the loop finished with the final
success counter and the (possibly still unbound) local `job`. -/
inductive LoopRes
  | earlyReturn (ret : Bool)
  | finished (num_success : Nat) (jobVar : Option JobRec)
  deriving DecidableEq

/-- Embeds the `for job_id in job_ids` loop of `handle_pending_submission`
(src lines 50-80), carrying Python's `num_success` counter and the local
variable `job` (unbound before the first successful iteration). -/
def jobLoop (w : World) :
    List Nat → Nat → Option JobRec → M LoopRes
  | [], num_success, jobVar => pure (.finished num_success jobVar)
  | job_id :: rest, num_success, jobVar => do
    emit (.queryJobInfo job_id)
    let info ← liftE (w.job_info job_id)
    let status := info.status
    if status = "solving" ∨ status = "processing" then do
      emit (.logInfo ("-> Job " ++ toString job_id ++ " is still solving"))
      pure (.earlyReturn false)
    else if status = "failure" then do
      emit (.logWarn ("-> Job " ++ toString job_id ++ " has failed"))
      let submission ← getSubmission
      setSubmission { submission with status := .FAILED_TO_PROCESS }
      saveSubmission
      pure (.earlyReturn false)
    else if status ≠ "success" then do
      let submission ← getSubmission
      emit (.logWarn ("-> Warning: unknown status " ++ status ++ ": job " ++
        toString job_id ++ ", submission " ++ toString submission.subid))
      emit (.logWarn ("-> Got the following response: " ++ info.toStr))
      pure (.earlyReturn false)
    else do
      emit (.queryJobAnnotations job_id)
      let annotations ← liftE (w.job_annotations job_id)
      let submission ← getSubmission
      let job : JobRec :=
        { submission := submission.subid, jobid := job_id,
          status := .SUCCESS, annotations := annotations, info := info }
      createJobRec job
      emit (.logInfo ("-> Job " ++ toString job_id ++ " was added"))
      jobLoop w rest (num_success + 1) (some job)

/-- Embeds `SubmissionHandler.handle_pending_submission` (src lines 36-85).
The membership test `'processing_finished' in substatus` is the
`isSome` test on the optional field; a falsy response is `none`.
Referencing the loop variable `job` when no iteration completed would be a
Python `NameError`, embedded as an error. -/
def handle_pending_submission (w : World) (gargs : GlobalArgs)
    (selfArgs : Args) : M Bool := do
  let submission ← getSubmission
  emit (.logInfo ("Querying for submission " ++ toString submission.subid ++
    "..."))
  emit (.querySubStatus submission.subid)
  let substatus ← liftE (w.sub_status submission.subid true)
  match substatus with
  | none => do
    emit (.logInfo "Submission is not done submitting yet.")
    pure false
  | some resp =>
    if resp.processing_finished.isNone then do
      emit (.logInfo "Submission is not done submitting yet.")
      pure false
    else do
      let job_ids := resp.jobs
      emit (.logInfo ("Submission has processing jobs: " ++ toString job_ids))
      let res ← jobLoop w job_ids 0 none
      match res with
      | .earlyReturn b => pure b
      | .finished num_success jobVar =>
        if num_success > 0 ∧ num_success = job_ids.length then do
          let job ← match jobVar with
            | some j => pure j
            | none => liftE (Except.error
                "NameError: local variable job referenced before assignment")
          process_completed_submission w gargs selfArgs job
          pure true
        else pure false

/-- The state at the start of one reconciliation of a SUBMITTED
submission (the driver at src lines 219-223 selects SUBMITTED records). -/
def initSt (subid : Nat) : St :=
  { trace := []
    submission := { subid := subid, status := .SUBMITTED, succeeded_at := none }
    submission_saves := []
    jobs_created := []
    results_created := []
    result_saves := [] }

/-- One full run of the handler on a pending submission. -/
def runHandle (w : World) (gargs : GlobalArgs) (selfArgs : Args)
    (subid : Nat) : St × Except String Bool :=
  handle_pending_submission w gargs selfArgs (initSt subid)

/-! Run lemmas: how each primitive of the embedding acts on a state. -/

@[simp] theorem M_bind_apply {α β : Type} (x : M α) (f : α → M β) (st : St) :
    (x >>= f) st =
      match x st with
      | (st1, Except.ok a) => f a st1
      | (st1, Except.error e) => (st1, Except.error e) := rfl

@[simp] theorem M_pure_apply {α : Type} (a : α) (st : St) :
    (pure a : M α) st = (st, Except.ok a) := rfl

@[simp] theorem emit_apply (e : Effect) (st : St) :
    emit e st = ({ st with trace := st.trace ++ [e] }, Except.ok ()) := rfl

@[simp] theorem liftE_apply {α : Type} (x : Except String α) (st : St) :
    liftE x st = (st, x) := rfl

@[simp] theorem getSubmission_apply (st : St) :
    getSubmission st = (st, Except.ok st.submission) := rfl

@[simp] theorem setSubmission_apply (s : SubRec) (st : St) :
    setSubmission s st = ({ st with submission := s }, Except.ok ()) := rfl

@[simp] theorem createJobRec_apply (j : JobRec) (st : St) :
    createJobRec j st =
      ({ st with trace := st.trace ++ [Effect.jobCreate j],
                 jobs_created := st.jobs_created ++ [j] }, Except.ok ()) := rfl

@[simp] theorem saveSubmission_apply (st : St) :
    saveSubmission st =
      ({ st with trace := st.trace ++ [Effect.subSave st.submission],
                 submission_saves := st.submission_saves ++ [st.submission] },
       Except.ok ()) := rfl

@[simp] theorem createAnalysisResult_apply (r : ResultRec) (st : St) :
    createAnalysisResult r st =
      ({ st with trace := st.trace ++ [Effect.resultCreate r],
                 results_created := st.results_created ++ [r] },
       Except.ok ()) := rfl

@[simp] theorem saveAnalysisResult_apply (r : ResultRec) (st : St) :
    saveAnalysisResult r st =
      ({ st with trace := st.trace ++ [Effect.resultSave r],
                 result_saves := st.result_saves ++ [r] }, Except.ok ()) := rfl

@[simp] theorem ofPure_sub_status (w : PureWorld) (s : Nat) (v : Bool) :
    (World.ofPure w).sub_status s v = Except.ok (w.sub_status s v) := rfl

@[simp] theorem ofPure_job_info (w : PureWorld) (j : Nat) :
    (World.ofPure w).job_info j = Except.ok (w.job_info j) := rfl

@[simp] theorem ofPure_job_annotations (w : PureWorld) (j : Nat) :
    (World.ofPure w).job_annotations j = Except.ok (w.job_annotations j) := rfl

@[simp] theorem ofPure_urlopen_read (w : PureWorld) (u : String) :
    (World.ofPure w).urlopen_read u = Except.ok (w.urlopen_read u) := rfl

@[simp] theorem ofPure_upload_to_s3_via_url (w : PureWorld) (u k n : String) :
    (World.ofPure w).upload_to_s3_via_url u k n =
      Except.ok (w.upload_to_s3_via_url u k n) := rfl

@[simp] theorem ofPure_upload_to_s3 (w : PureWorld) (d : Nat) (k n : String) :
    (World.ofPure w).upload_to_s3 d k n =
      Except.ok (w.upload_to_s3 d k n) := rfl

@[simp] theorem ofPure_upload_to_s3_via_file (w : PureWorld) (p k : String) :
    (World.ofPure w).upload_to_s3_via_file p k =
      Except.ok (w.upload_to_s3_via_file p k) := rfl

@[simp] theorem ofPure_load_data_as_fits (w : PureWorld) (d : Nat) :
    (World.ofPure w).load_data_as_fits d =
      Except.ok (w.load_data_as_fits d) := rfl

@[simp] theorem ofPure_compute (w : PureWorld) (d : Nat) :
    (World.ofPure w).compute d = Except.ok (w.compute d) := rfl

@[simp] theorem ofPure_plot (w : PureWorld) (s d : Nat) (p : String) :
    (World.ofPure w).plot s d p = Except.ok () := rfl

@[simp] theorem ofPure_save_fits (w : PureWorld) (s : Nat) (p : String) :
    (World.ofPure w).save_fits s p = Except.ok () := rfl

@[simp] theorem ofPure_save_json (w : PureWorld) (s : Nat) (p : String) :
    (World.ofPure w).save_json s p = Except.ok () := rfl

@[simp] theorem ofPure_compute_psf_flux (w : PureWorld) (d s : Nat)
    (p1 p2 p3 p4 : String) :
    (World.ofPure w).compute_psf_flux d s p1 p2 p3 p4 = Except.ok () := rfl

@[simp] theorem ofPure_now (w : PureWorld) :
    (World.ofPure w).now = w.now := rfl

/-! Characterization of the job loop, one step at a time. -/

/-- The job record created for a successfully solved job in a pure world. -/
def jobRecOf (w : PureWorld) (subid j : Nat) : JobRec :=
  { submission := subid, jobid := j, status := .SUCCESS,
    annotations := w.job_annotations j, info := w.job_info j }

/-- The effects of one successful loop iteration. -/
def successStepTrace (w : PureWorld) (subid j : Nat) : List Effect :=
  [.queryJobInfo j, .queryJobAnnotations j, .jobCreate (jobRecOf w subid j),
   .logInfo ("-> Job " ++ toString j ++ " was added")]

/-- The effects of a run of successful loop iterations. -/
def successTrace (w : PureWorld) (subid : Nat) : List Nat → List Effect
  | [] => []
  | j :: rest => successStepTrace w subid j ++ successTrace w subid rest

/-- Value of the loop-local variable `job` after a run of successful
iterations starting from `jv`. -/
def lastSuccessJob (w : PureWorld) (subid : Nat) :
    List Nat → Option JobRec → Option JobRec
  | [], jv => jv
  | j :: rest, _ => lastSuccessJob w subid rest (some (jobRecOf w subid j))

theorem jobLoop_cons_success (w : World) (j : Nat) (rest : List Nat)
    (n : Nat) (jv : Option JobRec) (st : St) (info : JobInfo) (ann : Nat)
    (hinfo : w.job_info j = Except.ok info)
    (hann : w.job_annotations j = Except.ok ann)
    (hs : info.status = "success") :
    jobLoop w (j :: rest) n jv st =
      jobLoop w rest (n + 1)
        (some { submission := st.submission.subid, jobid := j,
                status := .SUCCESS, annotations := ann, info := info })
        { st with
          trace := st.trace ++
            [.queryJobInfo j, .queryJobAnnotations j,
             .jobCreate { submission := st.submission.subid, jobid := j,
                          status := .SUCCESS, annotations := ann,
                          info := info },
             .logInfo ("-> Job " ++ toString j ++ " was added")],
          jobs_created := st.jobs_created ++
            [{ submission := st.submission.subid, jobid := j,
               status := .SUCCESS, annotations := ann, info := info }] } := by
  simp only [jobLoop, M_bind_apply, emit_apply, liftE_apply, hinfo, hann, hs,
    getSubmission_apply, createJobRec_apply, M_pure_apply]
  simp [List.append_assoc]

theorem jobLoop_cons_solving (w : World) (j : Nat) (rest : List Nat)
    (n : Nat) (jv : Option JobRec) (st : St) (info : JobInfo)
    (hinfo : w.job_info j = Except.ok info)
    (hs : info.status = "solving" ∨ info.status = "processing") :
    jobLoop w (j :: rest) n jv st =
      ({ st with trace := st.trace ++
          [.queryJobInfo j,
           .logInfo ("-> Job " ++ toString j ++ " is still solving")] },
       Except.ok (.earlyReturn false)) := by
  rcases hs with h | h <;>
    simp only [jobLoop, M_bind_apply, emit_apply, liftE_apply, hinfo, h,
      M_pure_apply] <;>
    simp [List.append_assoc]

theorem jobLoop_cons_failure (w : World) (j : Nat) (rest : List Nat)
    (n : Nat) (jv : Option JobRec) (st : St) (info : JobInfo)
    (hinfo : w.job_info j = Except.ok info)
    (hs : info.status = "failure") :
    jobLoop w (j :: rest) n jv st =
      ({ st with
         trace := st.trace ++
           [.queryJobInfo j, .logWarn ("-> Job " ++ toString j ++ " has failed"),
            .subSave { st.submission with status := .FAILED_TO_PROCESS }],
         submission := { st.submission with status := .FAILED_TO_PROCESS },
         submission_saves := st.submission_saves ++
           [{ st.submission with status := .FAILED_TO_PROCESS }] },
       Except.ok (.earlyReturn false)) := by
  simp only [jobLoop, M_bind_apply, emit_apply, liftE_apply, hinfo, hs,
    getSubmission_apply, setSubmission_apply, saveSubmission_apply,
    M_pure_apply]
  simp [List.append_assoc]

theorem jobLoop_cons_unknown (w : World) (j : Nat) (rest : List Nat)
    (n : Nat) (jv : Option JobRec) (st : St) (info : JobInfo)
    (hinfo : w.job_info j = Except.ok info)
    (h1 : ¬(info.status = "solving" ∨ info.status = "processing"))
    (h2 : info.status ≠ "failure") (h3 : info.status ≠ "success") :
    jobLoop w (j :: rest) n jv st =
      ({ st with trace := st.trace ++
          [.queryJobInfo j,
           .logWarn ("-> Warning: unknown status " ++ info.status ++
             ": job " ++ toString j ++ ", submission " ++
             toString st.submission.subid),
           .logWarn ("-> Got the following response: " ++ info.toStr)] },
       Except.ok (.earlyReturn false)) := by
  simp only [jobLoop, M_bind_apply, emit_apply, liftE_apply, hinfo,
    getSubmission_apply, M_pure_apply]
  rw [if_neg h1, if_neg h2]
  simp [h3, List.append_assoc]

theorem lastSuccessJob_getLast (w : PureWorld) (subid : Nat) :
    ∀ (jobs : List Nat) (jv : Option JobRec),
    lastSuccessJob w subid jobs jv =
      match jobs.getLast? with
      | some j => some (jobRecOf w subid j)
      | none => jv
  | [], jv => rfl
  | j :: rest, jv => by
    cases rest with
    | nil => simp [lastSuccessJob]
    | cons r rs =>
      rw [lastSuccessJob, lastSuccessJob_getLast w subid (r :: rs),
        List.getLast?_cons_cons]
      cases hg : (r :: rs).getLast? with
      | some y => simp
      | none => simp at hg

theorem jobLoop_all_success (w : PureWorld) :
    ∀ (jobs : List Nat) (n : Nat) (jv : Option JobRec) (st : St),
    (∀ j ∈ jobs, (w.job_info j).status = "success") →
    jobLoop (World.ofPure w) jobs n jv st =
      ({ st with
         trace := st.trace ++ successTrace w st.submission.subid jobs,
         jobs_created := st.jobs_created ++
           jobs.map (jobRecOf w st.submission.subid) },
       Except.ok (.finished (n + jobs.length)
         (lastSuccessJob w st.submission.subid jobs jv)))
  | [], n, jv, st, _ => by
    simp [jobLoop, successTrace, lastSuccessJob]
  | j :: rest, n, jv, st, h => by
    rw [jobLoop_cons_success (World.ofPure w) j rest n jv st (w.job_info j)
      (w.job_annotations j) rfl rfl (h j (by simp)),
      jobLoop_all_success w rest (n + 1) _ _
        (fun x hx => h x (by simp [hx]))]
    simp only [successTrace, successStepTrace, jobRecOf, lastSuccessJob]
    simp [List.append_assoc, jobRecOf]
    omega


theorem jobLoop_stops_solving (w : PureWorld) (x : Nat) (post : List Nat)
    (hx : (w.job_info x).status = "solving" ∨
          (w.job_info x).status = "processing") :
    ∀ (pre : List Nat) (n : Nat) (jv : Option JobRec) (st : St),
    (∀ j ∈ pre, (w.job_info j).status = "success") →
    jobLoop (World.ofPure w) (pre ++ x :: post) n jv st =
      ({ st with
         trace := st.trace ++ successTrace w st.submission.subid pre ++
           [.queryJobInfo x,
            .logInfo ("-> Job " ++ toString x ++ " is still solving")],
         jobs_created := st.jobs_created ++
           pre.map (jobRecOf w st.submission.subid) },
       Except.ok (.earlyReturn false))
  | [], n, jv, st, _ => by
    rw [List.nil_append,
      jobLoop_cons_solving (World.ofPure w) x post n jv st (w.job_info x)
        rfl hx]
    simp [successTrace]
  | j :: pre, n, jv, st, h => by
    rw [List.cons_append,
      jobLoop_cons_success (World.ofPure w) j (pre ++ x :: post) n jv st
        (w.job_info j) (w.job_annotations j) rfl rfl (h j (by simp)),
      jobLoop_stops_solving w x post hx pre (n + 1) _ _
        (fun y hy => h y (by simp [hy]))]
    simp only [successTrace, successStepTrace, jobRecOf]
    simp [List.append_assoc, jobRecOf]

theorem jobLoop_stops_failure (w : PureWorld) (x : Nat) (post : List Nat)
    (hx : (w.job_info x).status = "failure") :
    ∀ (pre : List Nat) (n : Nat) (jv : Option JobRec) (st : St),
    (∀ j ∈ pre, (w.job_info j).status = "success") →
    jobLoop (World.ofPure w) (pre ++ x :: post) n jv st =
      ({ st with
         trace := st.trace ++ successTrace w st.submission.subid pre ++
           [.queryJobInfo x, .logWarn ("-> Job " ++ toString x ++ " has failed"),
            .subSave { st.submission with status := .FAILED_TO_PROCESS }],
         submission := { st.submission with status := .FAILED_TO_PROCESS },
         submission_saves := st.submission_saves ++
           [{ st.submission with status := .FAILED_TO_PROCESS }],
         jobs_created := st.jobs_created ++
           pre.map (jobRecOf w st.submission.subid) },
       Except.ok (.earlyReturn false))
  | [], n, jv, st, _ => by
    rw [List.nil_append,
      jobLoop_cons_failure (World.ofPure w) x post n jv st (w.job_info x)
        rfl hx]
    simp [successTrace]
  | j :: pre, n, jv, st, h => by
    rw [List.cons_append,
      jobLoop_cons_success (World.ofPure w) j (pre ++ x :: post) n jv st
        (w.job_info j) (w.job_annotations j) rfl rfl (h j (by simp)),
      jobLoop_stops_failure w x post hx pre (n + 1) _ _
        (fun y hy => h y (by simp [hy]))]
    simp only [successTrace, successStepTrace, jobRecOf]
    simp [List.append_assoc, jobRecOf]

theorem jobLoop_stops_unknown (w : PureWorld) (x : Nat) (post : List Nat)
    (h1 : ¬((w.job_info x).status = "solving" ∨
            (w.job_info x).status = "processing"))
    (h2 : (w.job_info x).status ≠ "failure")
    (h3 : (w.job_info x).status ≠ "success") :
    ∀ (pre : List Nat) (n : Nat) (jv : Option JobRec) (st : St),
    (∀ j ∈ pre, (w.job_info j).status = "success") →
    jobLoop (World.ofPure w) (pre ++ x :: post) n jv st =
      ({ st with
         trace := st.trace ++ successTrace w st.submission.subid pre ++
           [.queryJobInfo x,
            .logWarn ("-> Warning: unknown status " ++ (w.job_info x).status ++
              ": job " ++ toString x ++ ", submission " ++
              toString st.submission.subid),
            .logWarn ("-> Got the following response: " ++
              (w.job_info x).toStr)],
         jobs_created := st.jobs_created ++
           pre.map (jobRecOf w st.submission.subid) },
       Except.ok (.earlyReturn false))
  | [], n, jv, st, _ => by
    rw [List.nil_append,
      jobLoop_cons_unknown (World.ofPure w) x post n jv st (w.job_info x)
        rfl h1 h2 h3]
    simp [successTrace]
  | j :: pre, n, jv, st, h => by
    rw [List.cons_append,
      jobLoop_cons_success (World.ofPure w) j (pre ++ x :: post) n jv st
        (w.job_info j) (w.job_annotations j) rfl rfl (h j (by simp)),
      jobLoop_stops_unknown w x post h1 h2 h3 pre (n + 1) _ _
        (fun y hy => h y (by simp [hy]))]
    simp only [successTrace, successStepTrace, jobRecOf]
    simp [List.append_assoc, jobRecOf]

/-- A publishing pass under a global binding whose `args['dry_run']`
subscript raises: the `AnalysisResult` row is created and three log lines
are emitted (including the deterministic annotated-image name), then the
first guard (src line 123) re-raises the subscript error.  No upload,
fetch, extraction or further mutation is reached.  This holds for every
world, since no external call precedes the guard. -/
theorem publish_run_raise (w : World) (g : GlobalArgs) (sa : Args)
    (e : String) (job : JobRec) (st : St)
    (hg : g.getitem_dry_run = Except.error e) :
    process_completed_submission w g sa job st =
      ({ st with
         trace := st.trace ++
           [.resultCreate (blankResult job),
            .logInfo ("-> Submission " ++ toString st.submission.subid ++
              ", Job " ++ toString job.jobid ++ " is complete"),
            .logInfo ("-> Uploading results for submission " ++
              toString st.submission.subid),
            .logInfo ("  -> Uploading " ++
              nm st.submission.subid job.jobid "_annotated.jpg" ++ "...")],
         results_created := st.results_created ++ [blankResult job] },
       Except.error e) := by
  simp [process_completed_submission, save_submission_results, hg,
    List.append_assoc]

/-- The two effects every handler run starts with (src lines 40-41). -/
def handlePreTrace (subid : Nat) : List Effect :=
  [.logInfo ("Querying for submission " ++ toString subid ++ "..."),
   .querySubStatus subid]

/-- The job-list log line (src line 48). -/
def jobsLog (jobs : List Nat) : Effect :=
  .logInfo ("Submission has processing jobs: " ++ toString jobs)

theorem handle_run_falsy (w : PureWorld) (g : GlobalArgs) (sa : Args) (st : St)
    (hs : w.sub_status st.submission.subid true = none) :
    handle_pending_submission (World.ofPure w) g sa st =
      ({ st with trace := st.trace ++ handlePreTrace st.submission.subid ++
          [.logInfo "Submission is not done submitting yet."] },
       Except.ok false) := by
  simp [handle_pending_submission, handlePreTrace, hs, List.append_assoc]

theorem handle_run_no_key (w : PureWorld) (g : GlobalArgs) (sa : Args) (st : St)
    (resp : SubStatusResp)
    (hs : w.sub_status st.submission.subid true = some resp)
    (hpf : resp.processing_finished = none) :
    handle_pending_submission (World.ofPure w) g sa st =
      ({ st with trace := st.trace ++ handlePreTrace st.submission.subid ++
          [.logInfo "Submission is not done submitting yet."] },
       Except.ok false) := by
  simp [handle_pending_submission, handlePreTrace, hs, hpf, List.append_assoc]

theorem handle_run_empty_jobs (w : PureWorld) (g : GlobalArgs) (sa : Args) (st : St)
    (resp : SubStatusResp) (pfv : Bool)
    (hs : w.sub_status st.submission.subid true = some resp)
    (hpf : resp.processing_finished = some pfv)
    (hj : resp.jobs = []) :
    handle_pending_submission (World.ofPure w) g sa st =
      ({ st with trace := st.trace ++ handlePreTrace st.submission.subid ++
          [jobsLog resp.jobs] },
       Except.ok false) := by
  simp [handle_pending_submission, handlePreTrace, jobsLog, hs, hpf, hj,
    jobLoop, List.append_assoc]

theorem handle_run_all_success_raise (w : PureWorld) (g : GlobalArgs)
    (sa : Args) (st : St) (resp : SubStatusResp) (pfv : Bool) (jl : Nat)
    (e : String)
    (hg : g.getitem_dry_run = Except.error e)
    (hs : w.sub_status st.submission.subid true = some resp)
    (hpf : resp.processing_finished = some pfv)
    (hjobs : ∀ j ∈ resp.jobs, (w.job_info j).status = "success")
    (hlast : resp.jobs.getLast? = some jl) :
    handle_pending_submission (World.ofPure w) g sa st =
      ({ st with
         trace := st.trace ++ handlePreTrace st.submission.subid ++
           [jobsLog resp.jobs] ++
           successTrace w st.submission.subid resp.jobs ++
           [.resultCreate (blankResult (jobRecOf w st.submission.subid jl)),
            .logInfo ("-> Submission " ++ toString st.submission.subid ++
              ", Job " ++ toString jl ++ " is complete"),
            .logInfo ("-> Uploading results for submission " ++
              toString st.submission.subid),
            .logInfo ("  -> Uploading " ++
              nm st.submission.subid jl "_annotated.jpg" ++ "...")],
         jobs_created := st.jobs_created ++
           resp.jobs.map (jobRecOf w st.submission.subid),
         results_created := st.results_created ++
           [blankResult (jobRecOf w st.submission.subid jl)] },
       Except.error e) := by
  have hne : resp.jobs ≠ [] := by
    intro he
    rw [he] at hlast
    simp at hlast
  have hlen : resp.jobs.length > 0 := List.length_pos.mpr hne
  simp only [handle_pending_submission, M_bind_apply, getSubmission_apply,
    emit_apply, liftE_apply, ofPure_sub_status, hs, hpf, M_pure_apply]
  rw [if_neg (by simp)]
  simp only [M_bind_apply, emit_apply]
  rw [jobLoop_all_success w resp.jobs 0 none _ hjobs]
  simp only [Nat.zero_add, lastSuccessJob_getLast, hlast]
  rw [if_pos ⟨hlen, trivial⟩]
  simp only [M_bind_apply, M_pure_apply]
  rw [publish_run_raise (World.ofPure w) g sa e _ _ hg]
  simp [handlePreTrace, jobsLog, jobRecOf, List.append_assoc]

theorem handle_run_failure (w : PureWorld) (g : GlobalArgs) (sa : Args) (st : St)
    (resp : SubStatusResp) (pfv : Bool) (pre : List Nat) (x : Nat)
    (post : List Nat)
    (hs : w.sub_status st.submission.subid true = some resp)
    (hpf : resp.processing_finished = some pfv)
    (hjobs : resp.jobs = pre ++ x :: post)
    (hpre : ∀ j ∈ pre, (w.job_info j).status = "success")
    (hx : (w.job_info x).status = "failure") :
    handle_pending_submission (World.ofPure w) g sa st =
      ({ st with
         trace := st.trace ++ handlePreTrace st.submission.subid ++
           [jobsLog resp.jobs] ++
           successTrace w st.submission.subid pre ++
           [.queryJobInfo x, .logWarn ("-> Job " ++ toString x ++ " has failed"),
            .subSave { st.submission with status := .FAILED_TO_PROCESS }],
         submission := { st.submission with status := .FAILED_TO_PROCESS },
         submission_saves := st.submission_saves ++
           [{ st.submission with status := .FAILED_TO_PROCESS }],
         jobs_created := st.jobs_created ++
           pre.map (jobRecOf w st.submission.subid) },
       Except.ok false) := by
  simp only [handle_pending_submission, M_bind_apply, getSubmission_apply,
    emit_apply, liftE_apply, ofPure_sub_status, hs, hpf, hjobs, M_pure_apply]
  rw [if_neg (by simp)]
  simp only [M_bind_apply, emit_apply]
  rw [jobLoop_stops_failure w x post hx pre 0 none _ hpre]
  simp [handlePreTrace, jobsLog, hjobs, List.append_assoc]

theorem handle_run_solving (w : PureWorld) (g : GlobalArgs) (sa : Args) (st : St)
    (resp : SubStatusResp) (pfv : Bool) (pre : List Nat) (x : Nat)
    (post : List Nat)
    (hs : w.sub_status st.submission.subid true = some resp)
    (hpf : resp.processing_finished = some pfv)
    (hjobs : resp.jobs = pre ++ x :: post)
    (hpre : ∀ j ∈ pre, (w.job_info j).status = "success")
    (hx : (w.job_info x).status = "solving" ∨
          (w.job_info x).status = "processing") :
    handle_pending_submission (World.ofPure w) g sa st =
      ({ st with
         trace := st.trace ++ handlePreTrace st.submission.subid ++
           [jobsLog resp.jobs] ++
           successTrace w st.submission.subid pre ++
           [.queryJobInfo x,
            .logInfo ("-> Job " ++ toString x ++ " is still solving")],
         jobs_created := st.jobs_created ++
           pre.map (jobRecOf w st.submission.subid) },
       Except.ok false) := by
  simp only [handle_pending_submission, M_bind_apply, getSubmission_apply,
    emit_apply, liftE_apply, ofPure_sub_status, hs, hpf, hjobs, M_pure_apply]
  rw [if_neg (by simp)]
  simp only [M_bind_apply, emit_apply]
  rw [jobLoop_stops_solving w x post hx pre 0 none _ hpre]
  simp [handlePreTrace, jobsLog, hjobs, List.append_assoc]

theorem handle_run_unknown (w : PureWorld) (g : GlobalArgs) (sa : Args) (st : St)
    (resp : SubStatusResp) (pfv : Bool) (pre : List Nat) (x : Nat)
    (post : List Nat)
    (hs : w.sub_status st.submission.subid true = some resp)
    (hpf : resp.processing_finished = some pfv)
    (hjobs : resp.jobs = pre ++ x :: post)
    (hpre : ∀ j ∈ pre, (w.job_info j).status = "success")
    (h1 : ¬((w.job_info x).status = "solving" ∨
            (w.job_info x).status = "processing"))
    (h2 : (w.job_info x).status ≠ "failure")
    (h3 : (w.job_info x).status ≠ "success") :
    handle_pending_submission (World.ofPure w) g sa st =
      ({ st with
         trace := st.trace ++ handlePreTrace st.submission.subid ++
           [jobsLog resp.jobs] ++
           successTrace w st.submission.subid pre ++
           [.queryJobInfo x,
            .logWarn ("-> Warning: unknown status " ++ (w.job_info x).status ++
              ": job " ++ toString x ++ ", submission " ++
              toString st.submission.subid),
            .logWarn ("-> Got the following response: " ++
              (w.job_info x).toStr)],
         jobs_created := st.jobs_created ++
           pre.map (jobRecOf w st.submission.subid) },
       Except.ok false) := by
  simp only [handle_pending_submission, M_bind_apply, getSubmission_apply,
    emit_apply, liftE_apply, ofPure_sub_status, hs, hpf, hjobs, M_pure_apply]
  rw [if_neg (by simp)]
  simp only [M_bind_apply, emit_apply]
  rw [jobLoop_stops_unknown w x post h1 h2 h3 pre 0 none _ hpre]
  simp [handlePreTrace, jobsLog, hjobs, List.append_assoc]

/-! Classifiers on effects used in the claims. -/

/-- True for the `jobs/<id>/info` query effects. -/
def Effect.isQueryJobInfo : Effect → Bool
  | .queryJobInfo _ => true
  | _ => false

/-- True for log-output effects. -/
def Effect.isLog : Effect → Bool
  | .logInfo _ => true
  | .logWarn _ => true
  | _ => false

/-- The `(key prefix, caller-chosen name)` arguments of an upload call;
for `upload_to_s3_via_file` the second component is the local path, whose
basename the sink uses as the object name. -/
def Effect.uploadArgs : Effect → Option (String × String)
  | .uploadViaUrl _ k n2 => some (k, n2)
  | .uploadBytes _ k n2 => some (k, n2)
  | .uploadFile p k => some (k, p)
  | _ => none

theorem successTrace_filter_query (w : PureWorld) (subid : Nat) :
    ∀ jobs : List Nat,
    (successTrace w subid jobs).filter Effect.isQueryJobInfo =
      jobs.map Effect.queryJobInfo
  | [] => rfl
  | j :: rest => by
    simp [successTrace, successStepTrace, List.filter_append,
      successTrace_filter_query w subid rest, Effect.isQueryJobInfo]

theorem successTrace_no_uploads (w : PureWorld) (subid : Nat) :
    ∀ jobs : List Nat,
    (successTrace w subid jobs).filterMap Effect.uploadArgs = []
  | [] => rfl
  | j :: rest => by
    simp [successTrace, successStepTrace, List.filterMap_append,
      successTrace_no_uploads w subid rest, Effect.uploadArgs]

/-- Every job list either consists only of successfully solved jobs or has
a first non-success position. -/
theorem all_success_or_first_non (w : PureWorld) :
    ∀ jobs : List Nat,
    (∀ j ∈ jobs, (w.job_info j).status = "success") ∨
    ∃ pre x post, jobs = pre ++ x :: post ∧
      (∀ j ∈ pre, (w.job_info j).status = "success") ∧
      (w.job_info x).status ≠ "success"
  | [] => Or.inl (by simp)
  | j :: rest => by
    by_cases hj : (w.job_info j).status = "success"
    · rcases all_success_or_first_non w rest with h | ⟨pre, x, post, he, hp, hx⟩
      · refine Or.inl ?_
        intro y hy
        rcases List.mem_cons.mp hy with rfl | hy
        · exact hj
        · exact h y hy
      · refine Or.inr ⟨j :: pre, x, post, by simp [he], ?_, hx⟩
        intro y hy
        rcases List.mem_cons.mp hy with rfl | hy
        · exact hj
        · exact hp y hy
    · exact Or.inr ⟨[], j, rest, rfl, by simp, hj⟩

/-- A configurable pure world used for concrete runs: one fixed
submission-status response and a per-job status function. -/
def pureW (resp : Option SubStatusResp) (statusOf : Nat → String) :
    PureWorld :=
  { sub_status := fun _ _ => resp
    job_info := fun j => { status := statusOf j, raw := j }
    job_annotations := fun j => j + 100
    urlopen_read := fun _ => 7
    upload_to_s3_via_url := fun _ k n2 => k ++ "/" ++ n2
    upload_to_s3 := fun _ k n2 => k ++ "/" ++ n2
    upload_to_s3_via_file := fun p k => k ++ "/" ++ p
    load_data_as_fits := fun d => d + 1
    compute := fun d => d + 2
    now := 999 }

def c1W : PureWorld :=
  pureW (some { processing_finished := some true, jobs := [1, 2] })
    (fun _ => "success")

/-- C1: evaluation of the code at the failing input.  For a fully
successful two-job batch under the real global binding (argparse
Namespace, src line 231), both job records are created in listed order and
publishing is entered — the AnalysisResult row for the last job record is
created — but the run then raises TypeError at the first
`args['dry_run']` guard (src line 123) and never returns True, against
the claim and the spec's intended success outcome. -/
theorem c1_failing_input_run :
    (runHandle (World.ofPure c1W) (namespaceArgs false) ⟨false⟩ 5).1.jobs_created =
      [1, 2].map (jobRecOf c1W 5) ∧
    (runHandle (World.ofPure c1W) (namespaceArgs false) ⟨false⟩
        5).1.results_created = [blankResult (jobRecOf c1W 5 2)] ∧
    (runHandle (World.ofPure c1W) (namespaceArgs false) ⟨false⟩ 5).2 =
      Except.error "TypeError: 'Namespace' object has no attribute '__getitem__'" ∧
    (runHandle (World.ofPure c1W) (namespaceArgs false) ⟨false⟩ 5).2 ≠
      Except.ok true := by
  have h := handle_run_all_success_raise c1W (namespaceArgs false) ⟨false⟩
    (initSt 5) { processing_finished := some true, jobs := [1, 2] } true 2
    "TypeError: 'Namespace' object has no attribute '__getitem__'"
    rfl rfl rfl (by decide) rfl
  rw [runHandle, h]
  simp [initSt]

/-- C5: a status response with the `processing_finished` key but an empty
job list makes the handler return False without publishing: the guard
`num_success > 0` rejects the zero-job case, no record is created or
mutated, and the unbound-variable reference is never evaluated (the run
ends in `Except.ok`, not a NameError). -/
theorem c5_empty_job_list_is_not_success
    (w : PureWorld) (g : GlobalArgs) (sa : Args) (subid : Nat)
    (resp : SubStatusResp)
    (pfv : Bool)
    (hs : w.sub_status subid true = some resp)
    (hpf : resp.processing_finished = some pfv)
    (hempty : resp.jobs = []) :
    (runHandle (World.ofPure w) g sa subid).2 = Except.ok false ∧
    (runHandle (World.ofPure w) g sa subid).1.results_created = [] ∧
    (runHandle (World.ofPure w) g sa subid).1.jobs_created = [] ∧
    (runHandle (World.ofPure w) g sa subid).1.submission =
      { subid := subid, status := .SUBMITTED, succeeded_at := none } ∧
    (runHandle (World.ofPure w) g sa subid).1.submission_saves = [] ∧
    (runHandle (World.ofPure w) g sa subid).1.result_saves = [] := by
  have h := handle_run_empty_jobs w g sa (initSt subid) resp pfv hs hpf hempty
  rw [runHandle, h]
  simp [initSt]

def c5W : PureWorld :=
  pureW (some { processing_finished := some true, jobs := [] })
    (fun _ => "success")

theorem c5_witness :
    (runHandle (World.ofPure c5W) (namespaceArgs false) ⟨false⟩ 9).2 = Except.ok false ∧
    (runHandle (World.ofPure c5W) (namespaceArgs false) ⟨false⟩ 9).1.results_created = [] ∧
    (runHandle (World.ofPure c5W) (namespaceArgs false) ⟨false⟩ 9).1.jobs_created = [] ∧
    (runHandle (World.ofPure c5W) (namespaceArgs false) ⟨false⟩ 9).1.submission =
      { subid := 9, status := .SUBMITTED, succeeded_at := none } ∧
    (runHandle (World.ofPure c5W) (namespaceArgs false) ⟨false⟩ 9).1.submission_saves = [] ∧
    (runHandle (World.ofPure c5W) (namespaceArgs false) ⟨false⟩ 9).1.result_saves = [] :=
  c5_empty_job_list_is_not_success c5W (namespaceArgs false) ⟨false⟩ 9
    { processing_finished := some true, jobs := [] } true rfl rfl rfl
def c2cexW : PureWorld :=
  pureW (some { processing_finished := some true, jobs := [1, 2] })
    (fun j => if j = 2 then "failure" else "solving")

/-- C2 counterexample: a batch listing job 1 as still `solving` and job 2
as `failure` contains a failing job, yet the handler returns before ever
querying job 2: the submission is never set to FAILED_TO_PROCESS and
nothing is persisted, contradicting the claim that every batch containing
a failure transitions the submission to FAILED_TO_PROCESS exactly once. -/
theorem c2_counterexample :
    (c2cexW.sub_status 3 true =
      some { processing_finished := some true, jobs := [1, 2] }) ∧
    (c2cexW.job_info 2).status = "failure" ∧
    (runHandle (World.ofPure c2cexW) (namespaceArgs false) ⟨false⟩ 3).2 = Except.ok false ∧
    (runHandle (World.ofPure c2cexW) (namespaceArgs false) ⟨false⟩ 3).1.submission_saves
      = [] ∧
    (runHandle (World.ofPure c2cexW) (namespaceArgs false) ⟨false⟩ 3).1.submission.status
      = SubStatus.SUBMITTED := by
  refine ⟨rfl, rfl, ?_⟩
  have h := handle_run_solving c2cexW (namespaceArgs false) ⟨false⟩ (initSt 3)
    { processing_finished := some true, jobs := [1, 2] } true [] 1 [2]
    rfl rfl rfl (by simp) (by exact Or.inl rfl)
  rw [runHandle, h]
  simp [initSt]

/-- C2 as amended: for every job batch whose FIRST non-success status in
listed order is `failure` (all earlier jobs reporting success), the
handler sets the submission to FAILED_TO_PROCESS exactly once, persists it
immediately, queries no job IDs after the failing one, creates job records
only for the successful jobs preceding it, and returns False. -/
theorem c2_amended_first_failure_short_circuits
    (w : PureWorld) (g : GlobalArgs) (sa : Args) (subid : Nat)
    (resp : SubStatusResp)
    (pfv : Bool) (pre : List Nat) (x : Nat) (post : List Nat)
    (hs : w.sub_status subid true = some resp)
    (hpf : resp.processing_finished = some pfv)
    (hjobs : resp.jobs = pre ++ x :: post)
    (hpre : ∀ j ∈ pre, (w.job_info j).status = "success")
    (hx : (w.job_info x).status = "failure") :
    (runHandle (World.ofPure w) g sa subid).2 = Except.ok false ∧
    (runHandle (World.ofPure w) g sa subid).1.submission_saves =
      [{ subid := subid, status := .FAILED_TO_PROCESS,
         succeeded_at := none }] ∧
    (runHandle (World.ofPure w) g sa subid).1.submission.status =
      SubStatus.FAILED_TO_PROCESS ∧
    (runHandle (World.ofPure w) g sa subid).1.jobs_created =
      pre.map (jobRecOf w subid) ∧
    (runHandle (World.ofPure w) g sa subid).1.results_created = [] ∧
    (runHandle (World.ofPure w) g sa subid).1.trace.filter
        Effect.isQueryJobInfo =
      (pre ++ [x]).map Effect.queryJobInfo := by
  have h := handle_run_failure w g sa (initSt subid) resp pfv pre x post hs
    hpf hjobs hpre hx
  rw [runHandle, h]
  refine ⟨rfl, by simp [initSt], by simp [initSt], by simp [initSt],
    by simp [initSt], ?_⟩
  simp [initSt, handlePreTrace, jobsLog, List.filter_append,
    successTrace_filter_query, Effect.isQueryJobInfo]

def c2W : PureWorld :=
  pureW (some { processing_finished := some true, jobs := [1, 2, 3] })
    (fun j => if j = 2 then "failure" else "success")

theorem c2_amended_witness :
    (runHandle (World.ofPure c2W) (namespaceArgs false) ⟨false⟩ 4).2 = Except.ok false ∧
    (runHandle (World.ofPure c2W) (namespaceArgs false) ⟨false⟩ 4).1.submission_saves =
      [{ subid := 4, status := .FAILED_TO_PROCESS, succeeded_at := none }] ∧
    (runHandle (World.ofPure c2W) (namespaceArgs false) ⟨false⟩ 4).1.submission.status =
      SubStatus.FAILED_TO_PROCESS ∧
    (runHandle (World.ofPure c2W) (namespaceArgs false) ⟨false⟩ 4).1.jobs_created =
      [1].map (jobRecOf c2W 4) ∧
    (runHandle (World.ofPure c2W) (namespaceArgs false) ⟨false⟩ 4).1.results_created = [] ∧
    (runHandle (World.ofPure c2W) (namespaceArgs false) ⟨false⟩ 4).1.trace.filter
        Effect.isQueryJobInfo =
      ([1] ++ [2]).map Effect.queryJobInfo :=
  c2_amended_first_failure_short_circuits c2W (namespaceArgs false) ⟨false⟩ 4
    { processing_finished := some true, jobs := [1, 2, 3] } true [1] 2 [3]
    rfl rfl rfl (by decide) rfl
def c3cexW : PureWorld :=
  pureW (some { processing_finished := some false, jobs := [1] })
    (fun _ => "success")

/-- C3 counterexample: a status response that reports
`processing_finished = false` (key present, value false) is NOT treated as
not-done: the source only tests key membership (src line 43), so the run
proceeds — a job record is created (a write) — and then raises TypeError
at the first dry-run guard inside publishing (src line 123), so the
handler neither returns a not-done signal nor leaves the store
untouched. -/
theorem c3_counterexample :
    (c3cexW.sub_status 3 true =
      some { processing_finished := some false, jobs := [1] }) ∧
    (runHandle (World.ofPure c3cexW) (namespaceArgs false) ⟨false⟩
        3).1.jobs_created ≠ [] ∧
    (runHandle (World.ofPure c3cexW) (namespaceArgs false) ⟨false⟩ 3).2 =
      Except.error "TypeError: 'Namespace' object has no attribute '__getitem__'" := by
  refine ⟨rfl, ?_⟩
  have h := handle_run_all_success_raise c3cexW (namespaceArgs false) ⟨false⟩
    (initSt 3) { processing_finished := some false, jobs := [1] } false 1
    "TypeError: 'Namespace' object has no attribute '__getitem__'"
    rfl rfl rfl (by decide) rfl
  rw [runHandle, h]
  simp [initSt]

/-- C3 as amended: for every submission whose status response is null or
LACKS the `processing_finished` key, reconciliation returns a not-done
signal and performs no writes (no record created, submission unchanged, no
analysis result).  A response with the key present but false is processed
normally, since the source tests only key membership. -/
theorem c3_amended_null_or_missing_key_is_pending
    (w : PureWorld) (g : GlobalArgs) (sa : Args) (subid : Nat)
    (h : w.sub_status subid true = none ∨
      ∃ resp, w.sub_status subid true = some resp ∧
        resp.processing_finished = none) :
    (runHandle (World.ofPure w) g sa subid).2 = Except.ok false ∧
    (runHandle (World.ofPure w) g sa subid).1.submission_saves = [] ∧
    (runHandle (World.ofPure w) g sa subid).1.jobs_created = [] ∧
    (runHandle (World.ofPure w) g sa subid).1.results_created = [] ∧
    (runHandle (World.ofPure w) g sa subid).1.result_saves = [] ∧
    (runHandle (World.ofPure w) g sa subid).1.submission =
      { subid := subid, status := .SUBMITTED, succeeded_at := none } := by
  rcases h with h | ⟨resp, hs, hpf⟩
  · have hr := handle_run_falsy w g sa (initSt subid) h
    rw [runHandle, hr]
    simp [initSt]
  · have hr := handle_run_no_key w g sa (initSt subid) resp hs hpf
    rw [runHandle, hr]
    simp [initSt]

def c3W : PureWorld := pureW none (fun _ => "success")

theorem c3_amended_witness :
    (runHandle (World.ofPure c3W) (namespaceArgs false) ⟨false⟩ 8).2 = Except.ok false ∧
    (runHandle (World.ofPure c3W) (namespaceArgs false) ⟨false⟩ 8).1.submission_saves = [] ∧
    (runHandle (World.ofPure c3W) (namespaceArgs false) ⟨false⟩ 8).1.jobs_created = [] ∧
    (runHandle (World.ofPure c3W) (namespaceArgs false) ⟨false⟩ 8).1.results_created = [] ∧
    (runHandle (World.ofPure c3W) (namespaceArgs false) ⟨false⟩ 8).1.result_saves = [] ∧
    (runHandle (World.ofPure c3W) (namespaceArgs false) ⟨false⟩ 8).1.submission =
      { subid := 8, status := .SUBMITTED, succeeded_at := none } :=
  c3_amended_null_or_missing_key_is_pending c3W (namespaceArgs false) ⟨false⟩ 8
    (Or.inl rfl)

def c7cexW : PureWorld :=
  pureW (some { processing_finished := some true, jobs := [1, 2] })
    (fun j => if j = 2 then "weird" else "success")

/-- C7 counterexample: a batch in which job 1 succeeds and job 2 reports
the unrecognized status `weird` does return a not-done signal without
setting FAILED_TO_PROCESS, but a mutation beyond log output has already
happened: the job record for job 1 was created, contradicting the claim
that no mutation occurs. -/
theorem c7_counterexample :
    ((c7cexW.job_info 2).status = "weird" ∧
     c7cexW.sub_status 3 true =
       some { processing_finished := some true, jobs := [1, 2] }) ∧
    (runHandle (World.ofPure c7cexW) (namespaceArgs false) ⟨false⟩ 3).2 =
      Except.ok false ∧
    (runHandle (World.ofPure c7cexW) (namespaceArgs false) ⟨false⟩ 3).1.submission.status =
      SubStatus.SUBMITTED ∧
    (runHandle (World.ofPure c7cexW) (namespaceArgs false) ⟨false⟩ 3).1.jobs_created
      ≠ [] := by
  refine ⟨⟨rfl, rfl⟩, ?_⟩
  have h := handle_run_unknown c7cexW (namespaceArgs false) ⟨false⟩ (initSt 3)
    { processing_finished := some true, jobs := [1, 2] } true [1] 2 []
    rfl rfl rfl (by decide) (by decide) (by decide) (by decide)
  rw [runHandle, h]
  simp [initSt]

/-- C7 as amended: for every job batch whose FIRST non-success status in
listed order is unrecognized (none of solving, processing, success,
failure), the handler treats the submission as not yet done: it returns a
not-done signal, does not set FAILED_TO_PROCESS, persists nothing for the
submission and creates no analysis result; the only record-store mutations
are the job records already created for the successful jobs preceding the
unrecognized one. -/
theorem c7_amended_unknown_status_defers
    (w : PureWorld) (g : GlobalArgs) (sa : Args) (subid : Nat)
    (resp : SubStatusResp)
    (pfv : Bool) (pre : List Nat) (x : Nat) (post : List Nat)
    (hs : w.sub_status subid true = some resp)
    (hpf : resp.processing_finished = some pfv)
    (hjobs : resp.jobs = pre ++ x :: post)
    (hpre : ∀ j ∈ pre, (w.job_info j).status = "success")
    (hx : (w.job_info x).status ∉
      (["solving", "processing", "success", "failure"] : List String)) :
    (runHandle (World.ofPure w) g sa subid).2 = Except.ok false ∧
    (runHandle (World.ofPure w) g sa subid).1.submission.status =
      SubStatus.SUBMITTED ∧
    (runHandle (World.ofPure w) g sa subid).1.submission_saves = [] ∧
    (runHandle (World.ofPure w) g sa subid).1.results_created = [] ∧
    (runHandle (World.ofPure w) g sa subid).1.result_saves = [] ∧
    (runHandle (World.ofPure w) g sa subid).1.jobs_created =
      pre.map (jobRecOf w subid) := by
  simp only [List.mem_cons, List.mem_singleton, List.not_mem_nil] at hx
  push_neg at hx
  have h := handle_run_unknown w g sa (initSt subid) resp pfv pre x post hs
    hpf hjobs hpre (by tauto) (by tauto) (by tauto)
  rw [runHandle, h]
  simp [initSt]

def c7W : PureWorld :=
  pureW (some { processing_finished := some true, jobs := [1, 2, 3] })
    (fun j => if j = 2 then "mystery" else "success")

theorem c7_amended_witness :
    (runHandle (World.ofPure c7W) (namespaceArgs false) ⟨false⟩ 6).2 = Except.ok false ∧
    (runHandle (World.ofPure c7W) (namespaceArgs false) ⟨false⟩ 6).1.submission.status =
      SubStatus.SUBMITTED ∧
    (runHandle (World.ofPure c7W) (namespaceArgs false) ⟨false⟩ 6).1.submission_saves = [] ∧
    (runHandle (World.ofPure c7W) (namespaceArgs false) ⟨false⟩ 6).1.results_created = [] ∧
    (runHandle (World.ofPure c7W) (namespaceArgs false) ⟨false⟩ 6).1.result_saves = [] ∧
    (runHandle (World.ofPure c7W) (namespaceArgs false) ⟨false⟩ 6).1.jobs_created =
      [1].map (jobRecOf c7W 6) :=
  c7_amended_unknown_status_defers c7W (namespaceArgs false) ⟨false⟩ 6
    { processing_finished := some true, jobs := [1, 2, 3] } true [1] 2 [3]
    rfl rfl rfl (by decide) (by decide)
def c6W : PureWorld :=
  pureW (some { processing_finished := some true, jobs := [1, 2] })
    (fun _ => "success")

/-- C6: evaluation of the code at the failing input.  In a run where every
listed job ID gets a SUCCESS job record, the submission still never
reaches COMPLETE and `succeeded_at` is never set: the run raises TypeError
at the first `args['dry_run']` guard (src line 123), which precedes the
status and timestamp updates (src lines 97-98), so the spec's completion
invariant is unrealizable in the program. -/
theorem c6_failing_input_run :
    (∀ j ∈ ([1, 2] : List Nat),
      ∃ rec ∈ (runHandle (World.ofPure c6W) (namespaceArgs false) ⟨false⟩
          7).1.jobs_created,
        rec.jobid = j ∧ rec.status = JobStatus.SUCCESS) ∧
    (runHandle (World.ofPure c6W) (namespaceArgs false) ⟨false⟩
        7).1.submission.status ≠ SubStatus.COMPLETE ∧
    (runHandle (World.ofPure c6W) (namespaceArgs false) ⟨false⟩
        7).1.submission.succeeded_at = none ∧
    (runHandle (World.ofPure c6W) (namespaceArgs false) ⟨false⟩ 7).2 =
      Except.error "TypeError: 'Namespace' object has no attribute '__getitem__'" := by
  have h := handle_run_all_success_raise c6W (namespaceArgs false) ⟨false⟩
    (initSt 7) { processing_finished := some true, jobs := [1, 2] } true 2
    "TypeError: 'Namespace' object has no attribute '__getitem__'"
    rfl rfl rfl (by decide) rfl
  rw [runHandle, h]
  refine ⟨?_, by simp [initSt], by simp [initSt], by simp⟩
  intro j hj
  refine ⟨jobRecOf c6W 7 j, ?_, by simp [jobRecOf]⟩
  rcases List.mem_cons.mp hj with rfl | hj2
  · simp [initSt]
  · rcases List.mem_cons.mp hj2 with rfl | hj3
    · simp [initSt]
    · simp at hj3

def c4cexWa : PureWorld :=
  pureW (some { processing_finished := some true, jobs := [1] })
    (fun _ => "success")

def c4cexWb : PureWorld :=
  pureW (some { processing_finished := some true, jobs := [1] })
    (fun _ => "failure")

/-- C4 counterexample: with the dry-run flag set, a fully successful
single-job submission still creates the SubmissionJob record and the
AnalysisResult row, and the run then raises TypeError at the first
`args['dry_run']` guard — before the FITS fetch and extraction, which
therefore never execute — while a failing job still persists the
FAILED_TO_PROCESS submission save.  Both the claimed suppression of all
persistence and the claimed execution of extraction and fetching are
false. -/
theorem c4_counterexample :
    (runHandle (World.ofPure c4cexWa) (namespaceArgs true) ⟨true⟩
        3).1.results_created ≠ [] ∧
    (runHandle (World.ofPure c4cexWa) (namespaceArgs true) ⟨true⟩
        3).1.jobs_created ≠ [] ∧
    (runHandle (World.ofPure c4cexWa) (namespaceArgs true) ⟨true⟩ 3).2 =
      Except.error "TypeError: 'Namespace' object has no attribute '__getitem__'" ∧
    Effect.httpGet (newImageFitsUrl 1) ∉
      (runHandle (World.ofPure c4cexWa) (namespaceArgs true) ⟨true⟩
        3).1.trace ∧
    (runHandle (World.ofPure c4cexWb) (namespaceArgs true) ⟨true⟩
        3).1.submission_saves ≠ [] := by
  have ha := handle_run_all_success_raise c4cexWa (namespaceArgs true) ⟨true⟩
    (initSt 3) { processing_finished := some true, jobs := [1] } true 1
    "TypeError: 'Namespace' object has no attribute '__getitem__'"
    rfl rfl rfl (by decide) rfl
  have hb := handle_run_failure c4cexWb (namespaceArgs true) ⟨true⟩
    (initSt 3) { processing_finished := some true, jobs := [1] } true [] 1 []
    rfl rfl rfl (by simp) rfl
  rw [runHandle, ha, runHandle, hb]
  refine ⟨by simp [initSt], by simp [initSt], by simp, ?_, by simp [initSt]⟩
  simp [initSt, handlePreTrace, jobsLog, successTrace, successStepTrace,
    newImageFitsUrl]

/-- C4 as amended: the dry-run flag is never successfully read — every
`args['dry_run']` evaluation subscripts the argparse Namespace and raises
TypeError — so a run with the flag set is identical to a non-dry-run pass
in every respect (same effects, same log messages, same writes, same
outcome): nothing is conditionally suppressed, the FAILED_TO_PROCESS save,
job-record creation and AnalysisResult creation still occur, and no sink
upload is ever reached in either mode. -/
theorem c4_amended_dry_run_flag_never_read (w : PureWorld) (b1 b2 : Bool)
    (sa1 sa2 : Args) (subid : Nat) :
    runHandle (World.ofPure w) (namespaceArgs b1) sa1 subid =
      runHandle (World.ofPure w) (namespaceArgs b2) sa2 subid ∧
    (runHandle (World.ofPure w) (namespaceArgs b1) sa1 subid).1.trace.filter
        Effect.isLog =
      (runHandle (World.ofPure w) (namespaceArgs b2) sa2 subid).1.trace.filter
        Effect.isLog ∧
    (runHandle (World.ofPure w) (namespaceArgs b1) sa1
        subid).1.trace.filterMap Effect.uploadArgs = [] := by
  refine ⟨rfl, rfl, ?_⟩
  rcases hsub : w.sub_status subid true with _ | resp
  · have h := handle_run_falsy w (namespaceArgs b1) sa1 (initSt subid) hsub
    rw [runHandle, h]
    simp [initSt, handlePreTrace, Effect.uploadArgs]
  · rcases hpf : resp.processing_finished with _ | pfv
    · have h := handle_run_no_key w (namespaceArgs b1) sa1 (initSt subid)
        resp hsub hpf
      rw [runHandle, h]
      simp [initSt, handlePreTrace, Effect.uploadArgs]
    · rcases all_success_or_first_non w resp.jobs with hall |
        ⟨pre, x, post, he, hp, hxne⟩
      · by_cases hne : resp.jobs = []
        · have h := handle_run_empty_jobs w (namespaceArgs b1) sa1
            (initSt subid) resp pfv hsub hpf hne
          rw [runHandle, h]
          simp [initSt, handlePreTrace, jobsLog, Effect.uploadArgs]
        · have hlast := List.getLast?_eq_getLast resp.jobs hne
          have h := handle_run_all_success_raise w (namespaceArgs b1) sa1
            (initSt subid) resp pfv (resp.jobs.getLast hne) _ rfl hsub hpf
            hall hlast
          rw [runHandle, h]
          simp [initSt, handlePreTrace, jobsLog, List.filterMap_append,
            successTrace_no_uploads, Effect.uploadArgs]
      · by_cases hsx : (w.job_info x).status = "solving" ∨
            (w.job_info x).status = "processing"
        · have h := handle_run_solving w (namespaceArgs b1) sa1 (initSt subid)
            resp pfv pre x post hsub hpf he hp hsx
          rw [runHandle, h]
          simp [initSt, handlePreTrace, jobsLog, List.filterMap_append,
            successTrace_no_uploads, Effect.uploadArgs]
        · by_cases hfx : (w.job_info x).status = "failure"
          · have h := handle_run_failure w (namespaceArgs b1) sa1
              (initSt subid) resp pfv pre x post hsub hpf he hp hfx
            rw [runHandle, h]
            simp [initSt, handlePreTrace, jobsLog, List.filterMap_append,
              successTrace_no_uploads, Effect.uploadArgs]
          · have h := handle_run_unknown w (namespaceArgs b1) sa1
              (initSt subid) resp pfv pre x post hsub hpf he hp hsx hfx hxne
            rw [runHandle, h]
            simp [initSt, handlePreTrace, jobsLog, List.filterMap_append,
              successTrace_no_uploads, Effect.uploadArgs]

set_option maxRecDepth 4000 in
set_option maxHeartbeats 2000000 in
/-- Frame equalities: a run of `process_fits_image` never touches the
submission object, the persisted submission saves, the persisted result
saves or the created analysis-result rows — whether it succeeds or
fails. -/
theorem frame_process_fits_image (w : World) (g : GlobalArgs) (sa : Args) (d : Nat)
    (job : JobRec) (r : ResultRec) (kp : String) : ∀ st : St,
    (process_fits_image w g sa d job r kp st).1.submission =
      st.submission ∧
    (process_fits_image w g sa d job r kp st).1.submission_saves =
      st.submission_saves ∧
    (process_fits_image w g sa d job r kp st).1.result_saves =
      st.result_saves ∧
    (process_fits_image w g sa d job r kp st).1.results_created =
      st.results_created := by
  intro st
  simp only [process_fits_image, M_bind_apply, emit_apply, liftE_apply,
    getSubmission_apply, M_pure_apply]
  repeat'
    first
    | simp only [M_bind_apply, emit_apply, liftE_apply, getSubmission_apply,
        M_pure_apply]
    | split
  all_goals
    first
    | exact ⟨rfl, rfl, rfl, rfl⟩
    | (simp only [Prod.mk.injEq] at *
       casesm* _ ∧ _
       subst_eqs
       exact ⟨rfl, rfl, rfl, rfl⟩)

theorem pfi_proj_submission (w : World) (g : GlobalArgs) (sa : Args) (d : Nat)
    (job : JobRec) (r : ResultRec) (kp : String) (st : St) :
    (process_fits_image w g sa d job r kp st).1.submission =
      st.submission :=
  (frame_process_fits_image w g sa d job r kp st).1

theorem pfi_proj_submission_saves (w : World) (g : GlobalArgs) (sa : Args) (d : Nat)
    (job : JobRec) (r : ResultRec) (kp : String) (st : St) :
    (process_fits_image w g sa d job r kp st).1.submission_saves =
      st.submission_saves :=
  (frame_process_fits_image w g sa d job r kp st).2.1

theorem pfi_proj_result_saves (w : World) (g : GlobalArgs) (sa : Args) (d : Nat)
    (job : JobRec) (r : ResultRec) (kp : String) (st : St) :
    (process_fits_image w g sa d job r kp st).1.result_saves =
      st.result_saves :=
  (frame_process_fits_image w g sa d job r kp st).2.2.1

theorem pfi_proj_results_created (w : World) (g : GlobalArgs) (sa : Args) (d : Nat)
    (job : JobRec) (r : ResultRec) (kp : String) (st : St) :
    (process_fits_image w g sa d job r kp st).1.results_created =
      st.results_created :=
  (frame_process_fits_image w g sa d job r kp st).2.2.2

set_option maxRecDepth 4000 in
set_option maxHeartbeats 2000000 in
/-- Frame equalities for a run of `save_submission_results`. -/
theorem frame_save_submission_results (w : World) (g : GlobalArgs)
    (sa : Args) (job : JobRec) (r : ResultRec) : ∀ st : St,
    (save_submission_results w g sa job r st).1.submission =
      st.submission ∧
    (save_submission_results w g sa job r st).1.submission_saves =
      st.submission_saves ∧
    (save_submission_results w g sa job r st).1.result_saves =
      st.result_saves ∧
    (save_submission_results w g sa job r st).1.results_created =
      st.results_created := by
  intro st
  simp only [save_submission_results, M_bind_apply, emit_apply, liftE_apply,
    getSubmission_apply, M_pure_apply]
  repeat'
    first
    | simp only [M_bind_apply, emit_apply, liftE_apply, getSubmission_apply,
        M_pure_apply]
    | split
  all_goals
    first
    | exact ⟨rfl, rfl, rfl, rfl⟩
    | (simp only [Prod.mk.injEq] at *
       casesm* _ ∧ _
       subst_eqs
       first
       | exact ⟨rfl, rfl, rfl, rfl⟩
       | (refine ⟨?_, ?_, ?_, ?_⟩
          · rw [pfi_proj_submission]
          · rw [pfi_proj_submission_saves]
          · rw [pfi_proj_result_saves]
          · rw [pfi_proj_results_created]))
/-- C8: a fetch, extraction or upload failure during result publishing is
caught by no handler: the error propagates out of
`process_completed_submission`, aborting the submission.  The submission
object and its persisted saves are untouched (status still SUBMITTED), no
result save happened, and the one AnalysisResult row created at the start
of publishing remains — no rollback or compensating write occurs. -/
theorem c8_publish_failure_propagates_without_rollback
    (w : World) (g : GlobalArgs) (sa : Args) (job : JobRec) (st : St)
    (e : String)
    (hsub : st.submission.status = SubStatus.SUBMITTED)
    (herr : (process_completed_submission w g sa job st).2 =
      Except.error e) :
    (process_completed_submission w g sa job st).1.submission =
      st.submission ∧
    (process_completed_submission w g sa job st).1.submission.status =
      SubStatus.SUBMITTED ∧
    (process_completed_submission w g sa job st).1.submission_saves =
      st.submission_saves ∧
    (process_completed_submission w g sa job st).1.result_saves =
      st.result_saves ∧
    (process_completed_submission w g sa job st).1.results_created =
      st.results_created ++ [blankResult job] := by
  cases hg : g.getitem_dry_run with
  | error e0 =>
    rw [publish_run_raise w g sa e0 job st hg] at herr ⊢
    simp only at herr
    refine ⟨rfl, hsub, rfl, rfl, rfl⟩
  | ok b =>
    have hframe := frame_save_submission_results w g sa job (blankResult job)
    simp only [process_completed_submission, M_bind_apply, emit_apply,
      getSubmission_apply, createAnalysisResult_apply, M_pure_apply]
      at herr ⊢
    generalize hmid : ({ st with
        trace := st.trace ++ [Effect.resultCreate (blankResult job)] ++
          [Effect.logInfo ("-> Submission " ++ toString st.submission.subid ++
            ", Job " ++ toString job.jobid ++ " is complete")],
        results_created := st.results_created ++ [blankResult job] } : St) =
      stMid at herr ⊢
    have hmid_sub : stMid.submission = st.submission := by rw [← hmid]
    have hmid_saves : stMid.submission_saves = st.submission_saves := by
      rw [← hmid]
    have hmid_rsaves : stMid.result_saves = st.result_saves := by rw [← hmid]
    have hmid_rc : stMid.results_created =
        st.results_created ++ [blankResult job] := by rw [← hmid]
    rcases hrun : save_submission_results w g sa job (blankResult job) stMid
      with ⟨st2, r⟩
    obtain ⟨hf1, hf2, hf3, hf4⟩ := hframe stMid
    rw [hrun] at hf1 hf2 hf3 hf4 herr
    cases r with
    | ok a =>
      simp only [M_bind_apply, setSubmission_apply, getSubmission_apply,
        saveAnalysisResult_apply, saveSubmission_apply, liftE_apply, hg,
        M_pure_apply] at herr
      cases b <;> simp at herr
    | error e2 =>
      simp only
      refine ⟨hf1.trans hmid_sub, ?_, hf2.trans hmid_saves,
        hf3.trans hmid_rsaves, hf4.trans hmid_rc⟩
      rw [hf1.trans hmid_sub, hsub]

def c8W : World :=
  { sub_status := fun _ _ => Except.ok
      (some { processing_finished := some true, jobs := [1] })
    job_info := fun j => Except.ok { status := "success", raw := j }
    job_annotations := fun j => Except.ok j
    urlopen_read := fun _ => Except.ok 7
    upload_to_s3_via_url := fun _ _ _ => Except.error "connection reset"
    upload_to_s3 := fun _ k n2 => Except.ok (k ++ "/" ++ n2)
    upload_to_s3_via_file := fun p k => Except.ok (k ++ "/" ++ p)
    load_data_as_fits := fun d => Except.ok d
    compute := fun d => Except.ok d
    plot := fun _ _ _ => Except.ok ()
    save_fits := fun _ _ => Except.ok ()
    save_json := fun _ _ => Except.ok ()
    compute_psf_flux := fun _ _ _ _ _ _ => Except.ok ()
    now := 999 }

def c8Job : JobRec :=
  { submission := 3, jobid := 1, status := .SUCCESS, annotations := 101,
    info := { status := "success", raw := 1 } }

theorem c8_witness :
    ((initSt 3).submission.status = SubStatus.SUBMITTED ∧
     (process_completed_submission c8W (dictArgs false) ⟨false⟩ c8Job
        (initSt 3)).2 = Except.error "connection reset") ∧
    ((process_completed_submission c8W (dictArgs false) ⟨false⟩ c8Job
        (initSt 3)).1.submission = (initSt 3).submission ∧
     (process_completed_submission c8W (dictArgs false) ⟨false⟩ c8Job
        (initSt 3)).1.submission.status = SubStatus.SUBMITTED ∧
     (process_completed_submission c8W (dictArgs false) ⟨false⟩ c8Job
        (initSt 3)).1.submission_saves = (initSt 3).submission_saves ∧
     (process_completed_submission c8W (dictArgs false) ⟨false⟩ c8Job
        (initSt 3)).1.result_saves = (initSt 3).result_saves ∧
     (process_completed_submission c8W (dictArgs false) ⟨false⟩ c8Job
        (initSt 3)).1.results_created =
       (initSt 3).results_created ++ [blankResult c8Job]) :=
  ⟨⟨rfl, by rfl⟩,
   c8_publish_failure_propagates_without_rollback c8W (dictArgs false)
     ⟨false⟩ c8Job (initSt 3) "connection reset" rfl (by rfl)⟩

def c9W : PureWorld := pureW none (fun _ => "success")

def c9Job : JobRec :=
  { submission := 42, jobid := 7, status := .SUCCESS, annotations := 107,
    info := { status := "success", raw := 7 } }

/-- C9: evaluation of the code at the failing input.  Publishing for
subid 42, jobid 7 under the real global binding constructs and logs the
deterministic artifact name `42_7_annotated.jpg` and then raises TypeError
at the first `args['dry_run']` guard (src line 123): the trace is exactly
the AnalysisResult creation and three log lines — no upload (under
`processed/42` or anywhere) and no plot write is ever reached, against the
claim that the artifacts are uploaded and the plot file written. -/
theorem c9_failing_input_run :
    (process_completed_submission (World.ofPure c9W) (namespaceArgs false)
        ⟨false⟩ c9Job (initSt 42)).1.trace =
      [.resultCreate (blankResult c9Job),
       .logInfo "-> Submission 42, Job 7 is complete",
       .logInfo "-> Uploading results for submission 42",
       .logInfo "  -> Uploading 42_7_annotated.jpg..."] ∧
    (process_completed_submission (World.ofPure c9W) (namespaceArgs false)
        ⟨false⟩ c9Job (initSt 42)).2 =
      Except.error "TypeError: 'Namespace' object has no attribute '__getitem__'" ∧
    (process_completed_submission (World.ofPure c9W) (namespaceArgs false)
        ⟨false⟩ c9Job (initSt 42)).1.trace.filterMap Effect.uploadArgs =
      [] := by
  rw [publish_run_raise (World.ofPure c9W) (namespaceArgs false) ⟨false⟩
    "TypeError: 'Namespace' object has no attribute '__getitem__'" c9Job
    (initSt 42) rfl]
  refine ⟨?_, rfl, ?_⟩ <;> decide

/-- C10: the args dict stored by the constructor is dead state — every
dry-run decision evaluates the module-level `args` binding, so two runs of
the handler or of any publishing step that differ only in the constructor
args are literally the same computation, and behavior depends solely on
the global binding. -/
theorem c10_constructor_args_never_read (w : World) (g : GlobalArgs)
    (a1 a2 : Args) (job : JobRec) (r : ResultRec) (d : Nat) (kp : String) :
    handle_pending_submission w g a1 = handle_pending_submission w g a2 ∧
    process_completed_submission w g a1 job =
      process_completed_submission w g a2 job ∧
    save_submission_results w g a1 job r =
      save_submission_results w g a2 job r ∧
    process_fits_image w g a1 d job r kp =
      process_fits_image w g a2 d job r kp :=
  ⟨rfl, rfl, rfl, rfl⟩
